import Mathlib

/-!
Verification of the tool-call orchestration core of the activities-agent
backend.  The definitions below are a shallow embedding of
`backend/agents/orchestrator.py` and `backend/agents/available_tools.py`:

* `ToolCall`, `TurnMsg`, `Msg` model the OpenAI tool-call / chat message
  shapes the orchestrator manipulates;
* `filter_to_available_tools` embeds the allow-list filter;
* `execute_tool` embeds `AgentOrchestrator._execute_tool` (registry lookup,
  user_id injection, exception capture);
* `get_completion` embeds the live-path retry logic of
  `AgentOrchestrator._get_completion` (fuel models Python recursion depth);
* `process_message_loop` / `process_message` embed
  `AgentOrchestrator.process_message`, with the completion transport, the
  JSON argument decoder and the bound tool callables passed in as
  parameters (they are external effects).

The Python reference of an unassigned local on the plain final-response
path is modelled by the `RunErr.unboundLocal` error outcome.
-/

namespace ActivitiesAgent

/-- One tool call proposed by the model: `tc.id`, `tc.type`,
`tc.function.name`, `tc.function.arguments` in the source. -/
structure ToolCall where
  id : String
  type : String
  name : String
  arguments : String
deriving DecidableEq, Repr

/-- One completion choice message: `content` (nullable) plus the proposed
tool calls (`None`/empty list are both the empty list here). -/
structure TurnMsg where
  content : Option String
  tool_calls : List ToolCall
deriving DecidableEq, Repr

/-- Outcome of invoking a bound Python callable: normal return or a raised
exception carrying `str(e)`. -/
inductive PyOutcome where
  | ok (v : String)
  | exn (msg : String)
deriving DecidableEq, Repr

/-- Result of `_execute_tool`: either the tool value or the
`error: message` dictionary the orchestrator substitutes for faults. -/
inductive ExecResult where
  | value (v : String)
  | error (msg : String)
deriving DecidableEq, Repr

/-- A decoded argument dictionary (insertion-ordered, unique keys). -/
abbrev ArgMap := List (String × String)

/-- Python `d[k] = v`: replace the value at `k` in place if present,
append `(k, v)` otherwise. -/
def dictInsert : ArgMap → String → String → ArgMap
  | [], k, v => [(k, v)]
  | p :: rest, k, v => if p.1 = k then (k, v) :: rest else p :: dictInsert rest k v

/-- Python `d.get(k)`. -/
def dictLookup : ArgMap → String → Option String
  | [], _ => none
  | p :: rest, k => if p.1 = k then some p.2 else dictLookup rest k

/-- `ALLOWLISTED_TOOLS` from `available_tools.py` (the commented-out
entries are absent). -/
def ALLOWLISTED_TOOLS : List String :=
  ["get_user_preferences", "update_user_preferences", "save_to_sheets"]

/-- `TOOL_DISPLAY_NAMES` from `available_tools.py`. -/
def TOOL_DISPLAY_NAMES : List (String × String) :=
  [("search_places_for_dates", "Google Maps"),
   ("get_weather_for_location", "Weather"),
   ("scrape_activities", "Web Scraper"),
   ("save_to_sheets", "Google Sheets"),
   ("get_user_preferences", "Preferences"),
   ("update_user_preferences", "Preferences")]

/-- `TOOL_DISPLAY_NAMES.get(tool_name, tool_name)`. -/
def displayName (n : String) : String :=
  (((TOOL_DISPLAY_NAMES.find? (fun p => p.1 = n)).map Prod.snd)).getD n

/-- The loop of `filter_to_available_tools`, with the two accumulators
(`filtered`, `skipped_display_names`) made explicit. -/
def filterToAvailableAux : List ToolCall → List ToolCall → List String →
    List ToolCall × List String
  | [], fs, sk => (fs, sk)
  | tc :: rest, fs, sk =>
    if tc.name ∉ ALLOWLISTED_TOOLS then
      let d := displayName tc.name
      filterToAvailableAux rest fs (if d ∈ sk then sk else sk ++ [d])
    else
      filterToAvailableAux rest (fs ++ [tc]) sk

/-- `filter_to_available_tools` from `available_tools.py`: keep the
allow-listed calls (converted to dicts with the same id, type, name and
arguments fields), and collect deduplicated display names of the denied
ones. -/
def filter_to_available_tools (tcs : List ToolCall) : List ToolCall × List String :=
  filterToAvailableAux tcs [] []

/-- Keys of the `TOOL_FUNCTIONS` dict in `orchestrator.py`; the bound
callables themselves are external effects and are passed to `execute_tool`
as the `funcs` parameter. -/
def TOOL_FUNCTIONS : List String :=
  ["scrape_activities", "save_to_sheets", "get_user_preferences",
   "update_user_preferences", "search_places_for_dates", "get_weather_for_location"]

/-- `ALL_TOOLS` from `orchestrator.py`, reduced to the fields
`_execute_tool` reads from each definition: `function.name` paired with
`function.parameters.required`. -/
def ALL_TOOLS : List (String × List String) :=
  [("scrape_activities", ["query"]),
   ("save_to_sheets", ["activities"]),
   ("get_user_preferences", ["user_id"]),
   ("update_user_preferences", ["user_id"]),
   ("search_places_for_dates", ["location1"]),
   ("get_weather_for_location", ["location"])]

/-- `next((t for t in ALL_TOOLS if t.function.name == tool_name), None)`,
projected to the required-parameter list. -/
def findToolDef (name : String) : Option (List String) :=
  (ALL_TOOLS.find? (fun p => p.1 = name)).map Prod.snd

/-- The user_id injection step of `_execute_tool`: if the (first) matching
tool definition requires `user_id`, overwrite it with the session value. -/
def injectArgs (uid name : String) (args : ArgMap) : ArgMap :=
  match findToolDef name with
  | none => args
  | some req => if "user_id" ∈ req then dictInsert args "user_id" uid else args

/-- `AgentOrchestrator._execute_tool`: unknown names yield the
`Unknown tool:` error dictionary without calling anything; otherwise the
callable runs on the injected arguments and a raised exception becomes an
`error` result. -/
def execute_tool (funcs : String → ArgMap → PyOutcome) (uid name : String)
    (args : ArgMap) : ExecResult :=
  if name ∉ TOOL_FUNCTIONS then
    .error ("Unknown tool: " ++ name)
  else
    match funcs name (injectArgs uid name args) with
    | .ok v => .value v
    | .exn m => .error m

/-- `OPENROUTER_DEFAULT_MODEL` in `orchestrator.py`. -/
def OPENROUTER_DEFAULT_MODEL : String := "xiaomi/mimo-v2-flash:free"

/-- `OPENROUTER_BACKUP_MODEL` in `orchestrator.py`. -/
def OPENROUTER_BACKUP_MODEL : String := "google/gemini-2.0-flash-exp:free"

/-- Outcome of one transport attempt inside `_get_completion`: a usable
completion, an exception whose response carries HTTP status 429, or any
other exception. -/
inductive TOutcome where
  | ok (c : TurnMsg)
  | err429
  | errOther (msg : String)
deriving DecidableEq, Repr

/-- The model identifier the code passes on the i-th transport attempt:
the caller-supplied model first, the backup model on every retry. -/
def modelAt (m0 : String) : Nat → String
  | 0 => m0
  | _ + 1 => OPENROUTER_BACKUP_MODEL

/-- Live path of `AgentOrchestrator._get_completion`.  `t i model` is the
transport outcome of attempt `i` issued with `model`; a 429 exception
triggers `self._get_completion(OPENROUTER_BACKUP_MODEL)` (a recursive
call), any other exception is re-raised (`Except.error`), and `none`
models exhausting the Python stack (the recursion has no bound of its
own).  The returned `Nat` counts the attempts that were made. -/
def getCompletionAux (t : Nat → String → TOutcome) :
    Nat → Nat → String → Option (Except String (TurnMsg × Nat))
  | 0, _, _ => none
  | fuel + 1, i, model =>
    match t i model with
    | .ok c => some (.ok (c, i + 1))
    | .err429 => getCompletionAux t fuel (i + 1) OPENROUTER_BACKUP_MODEL
    | .errOther m => some (.error m)

/-- `_get_completion` entered from `process_message` with a given model. -/
def get_completion (t : Nat → String → TOutcome) (fuel : Nat) (model : String) :
    Option (Except String (TurnMsg × Nat)) :=
  getCompletionAux t fuel 0 model

/-- `AgentOrchestrator._build_skipped_tools_message`. -/
def build_skipped_tools_message (skipped : List String) : Option String :=
  if skipped = [] then none
  else
    let tools_str :=
      if skipped.length ≤ 2 then String.intercalate " and " skipped
      else String.intercalate ", " skipped.dropLast ++ ", and " ++ (skipped.getLast?.getD "")
    some ("I wanted to use " ++ tools_str ++
      ", but the website owner has disabled them unless you know the magic word.")

/-- The `for tool_name in skipped_tools: if tool_name not in
all_skipped_tools: append` loop in `process_message`. -/
def mergeSkipped (all : List String) : List String → List String
  | [] => all
  | n :: rest => mergeSkipped (if n ∈ all then all else all ++ [n]) rest

/-- One entry of `all_tool_results`. -/
structure ToolEntry where
  tool : String
  result : ExecResult
deriving DecidableEq, Repr

/-- Conversation-history message, as appended by `process_message`.
An assistant message stores its `tool_calls` key as a list (the key is
absent exactly when the list is empty). -/
inductive Msg where
  | system (content : String)
  | user (content : String)
  | assistant (content : String) (tool_calls : List ToolCall)
  | tool (tool_call_id : String) (result : ExecResult)
deriving DecidableEq, Repr

/-- The tool-execution block of one loop iteration (`orchestrator.py`
lines 302-318): decode each call's arguments (falling back to the empty
dict on a JSON decode error), run `_execute_tool`, and record both the
`all_tool_results` entry and the tool-role history message. -/
def execToolCalls (decode : String → Option ArgMap)
    (funcs : String → ArgMap → PyOutcome) (uid : String) :
    List ToolCall → List ToolEntry × List Msg
  | [] => ([], [])
  | tc :: rest =>
    let args := (decode tc.arguments).getD []
    let result := execute_tool funcs uid tc.name args
    let er := execToolCalls decode funcs uid rest
    ({ tool := tc.name, result := result } :: er.1, Msg.tool tc.id result :: er.2)

/-- The runtime fault `process_message` can raise: referencing a local
variable on a path where it was never assigned. -/
inductive RunErr where
  | unboundLocal (name : String)
deriving DecidableEq, Repr

/-- The dictionary `process_message` returns. -/
structure PMOut where
  response : String
  tool_results : List ToolEntry
  skipped_tools_message : Option String
deriving DecidableEq, Repr

/-- Mutable state carried across loop iterations of `process_message`. -/
structure LoopState where
  callIdx : Nat
  history : List Msg
  toolResults : List ToolEntry
  allSkipped : List String
deriving Repr

/-- Instrumented outcome of `process_message`: the returned value (or the
raised error), the number of completion calls issued, the final
conversation history and the accumulated `all_skipped_tools` list. -/
structure PMTrace where
  result : Except RunErr PMOut
  calls : Nat
  history : List Msg
  allSkipped : List String
deriving Repr

/-- Python `s or default` for strings. -/
def pyStrOr (s d : String) : String := if s = "" then d else s

/-- The `while iteration < max_iterations` loop of `process_message`,
by recursion on the remaining iterations; fuel 0 is the summary epilogue
after the loop.  `comps k` is the k-th completion call's message (`none`
models an empty `choices` list).  The branch in which the turn has no
executable tools, and either carried text or denied nothing, evaluates
`skipped_tools_msg` without it having been assigned, which raises
`UnboundLocalError` in the source (lines 292-293). -/
def process_message_loop (comps : Nat → Option TurnMsg)
    (decode : String → Option ArgMap) (funcs : String → ArgMap → PyOutcome)
    (uid : String) : Nat → LoopState → PMTrace
  | 0, st =>
    match comps st.callIdx with
    | some tm =>
      let summary_content := tm.content.getD ""
      { result := .ok
          { response := pyStrOr summary_content
              "I found some results but couldn\x27t summarize them.",
            tool_results := st.toolResults,
            skipped_tools_message :=
              if st.allSkipped ≠ [] then build_skipped_tools_message st.allSkipped
              else none },
        calls := st.callIdx + 1,
        history := st.history ++ [Msg.assistant summary_content []],
        allSkipped := st.allSkipped }
    | none =>
      { result := .ok
          { response := "I encountered an issue processing your request.",
            tool_results := st.toolResults,
            skipped_tools_message :=
              if st.allSkipped ≠ [] then build_skipped_tools_message st.allSkipped
              else none },
        calls := st.callIdx + 1,
        history := st.history,
        allSkipped := st.allSkipped }
  | fuel + 1, st =>
    match comps st.callIdx with
    | none =>
      { result := .ok
          { response := "I encountered an issue processing your request. Please try again.",
            tool_results := st.toolResults,
            skipped_tools_message := none },
        calls := st.callIdx + 1,
        history := st.history,
        allSkipped := st.allSkipped }
    | some m =>
      let content := m.content.getD ""
      let fs := if m.tool_calls ≠ [] then filter_to_available_tools m.tool_calls
                else ([], [])
      let filtered := fs.1
      let skipped := fs.2
      let allSkipped := mergeSkipped st.allSkipped skipped
      let history := st.history ++ [Msg.assistant content filtered]
      if filtered ≠ [] then
        let er := execToolCalls decode funcs uid filtered
        process_message_loop comps decode funcs uid fuel
          { callIdx := st.callIdx + 1,
            history := history ++ er.2,
            toolResults := st.toolResults ++ er.1,
            allSkipped := allSkipped }
      else if skipped ≠ [] ∧ content = "" then
        let hint := "The tools you requested (" ++ String.intercalate ", " skipped ++
          ") are currently unavailable. Please provide a helpful response without using those tools, based on your general knowledge."
        let history := history ++ [Msg.system hint]
        let fallback_content :=
          match comps (st.callIdx + 1) with
          | none => "I\x27m having trouble processing your request."
          | some fb => fb.content.getD ""
        let history := history ++ [Msg.assistant fallback_content []]
        let noteMsg := build_skipped_tools_message allSkipped
        let fallback2 :=
          match noteMsg with
          | some s => fallback_content ++ "\n\n(Note:" ++ s ++ ")"
          | none => fallback_content
        { result := .ok
            { response := pyStrOr fallback2.trim "I couldn\x27t generate a response.",
              tool_results := st.toolResults,
              skipped_tools_message := noteMsg },
          calls := st.callIdx + 2,
          history := history,
          allSkipped := allSkipped }
      else
        { result := .error (.unboundLocal "skipped_tools_msg"),
          calls := st.callIdx + 1,
          history := history,
          allSkipped := allSkipped }

/-- `max_iterations` in `process_message`. -/
def max_iterations : Nat := 3

/-- Instrumented `AgentOrchestrator.process_message`: append the user
message to the history and run the iteration loop. -/
def process_message_trace (comps : Nat → Option TurnMsg)
    (decode : String → Option ArgMap) (funcs : String → ArgMap → PyOutcome)
    (uid message : String) (history0 : List Msg) : PMTrace :=
  process_message_loop comps decode funcs uid max_iterations
    { callIdx := 0, history := history0 ++ [Msg.user message],
      toolResults := [], allSkipped := [] }

/-- `AgentOrchestrator.process_message`: the returned dictionary, or the
runtime error the call raises. -/
def process_message (comps : Nat → Option TurnMsg)
    (decode : String → Option ArgMap) (funcs : String → ArgMap → PyOutcome)
    (uid message : String) (history0 : List Msg) : Except RunErr PMOut :=
  (process_message_trace comps decode funcs uid message history0).result

/-! ## Concrete inputs used by witnesses and counterexamples -/

/-- A callable echoing the `user_id` it actually received. -/
def w2funcs : String → ArgMap → PyOutcome := fun _ args =>
  .ok ((dictLookup args "user_id").getD "missing")

/-- Callables in which the weather tool raises `no api key`. -/
def w4funcs : String → ArgMap → PyOutcome := fun n _ =>
  if n = "get_weather_for_location" then .exn "no api key" else .ok "r"

/-- A single allow-listed call whose arguments string is not JSON. -/
def w9calls : List ToolCall :=
  [{ id := "1", type := "function", name := "get_user_preferences",
     arguments := "not-json" }]

/-- A completion carrying only final text. -/
def mockTurn : TurnMsg := { content := some "final answer", tool_calls := [] }

/-- A transport that signals 429 on the first two attempts, then succeeds. -/
def w8twice : Nat → String → TOutcome :=
  fun i _ => if i < 2 then .err429 else .ok mockTurn

/-- A transport that signals 429 once, then succeeds. -/
def w8once : Nat → String → TOutcome :=
  fun i _ => if i = 0 then .err429 else .ok mockTurn

/-- A completion provider that always returns text and no tool calls. -/
def w1comps : Nat → Option TurnMsg :=
  fun _ => some { content := some "Hello!", tool_calls := [] }

/-- A completion provider whose responses always have empty `choices`. -/
def w10comps : Nat → Option TurnMsg := fun _ => none

/-- A turn that always proposes one executable (allow-listed) call. -/
def w5turn : TurnMsg :=
  { content := none,
    tool_calls := [{ id := "1", type := "function", name := "save_to_sheets",
                     arguments := "" }] }

/-- A provider always proposing the executable call of `w5turn`. -/
def w5comps : Nat → Option TurnMsg := fun _ => some w5turn

/-- A turn with no text that proposes only a denied tool. -/
def w6turn : TurnMsg :=
  { content := none,
    tool_calls := [{ id := "1", type := "function", name := "scrape_activities",
                     arguments := "" }] }

/-- A provider proposing only the denied call of `w6turn`, then text. -/
def w6comps : Nat → Option TurnMsg :=
  fun k => if k = 0 then some w6turn
           else some { content := some "General advice.", tool_calls := [] }

/-- The loop state at the start of a fresh `process_message` call. -/
def w6st : LoopState :=
  { callIdx := 0, history := [Msg.user "ideas?"], toolResults := [], allSkipped := [] }

/-! ## Helper lemmas -/

theorem dictInsert_dictInsert (m : ArgMap) (k v u : String) :
    dictInsert (dictInsert m k v) k u = dictInsert m k u := by
  induction m with
  | nil => simp [dictInsert]
  | cons p rest ih =>
    by_cases h : p.1 = k
    · simp [dictInsert, h]
    · simp [dictInsert, h, ih]

theorem dictLookup_dictInsert (m : ArgMap) (k v : String) :
    dictLookup (dictInsert m k v) k = some v := by
  induction m with
  | nil => simp [dictInsert, dictLookup]
  | cons p rest ih =>
    by_cases h : p.1 = k <;> simp [dictInsert, dictLookup, h, ih]

theorem filterToAvailableAux_fst (tcs : List ToolCall) :
    ∀ fs sk, (filterToAvailableAux tcs fs sk).1 =
      fs ++ tcs.filter (fun tc => decide (tc.name ∈ ALLOWLISTED_TOOLS)) := by
  induction tcs with
  | nil => intro fs sk; simp [filterToAvailableAux]
  | cons tc rest ih =>
    intro fs sk
    by_cases h : tc.name ∈ ALLOWLISTED_TOOLS
    · simp [filterToAvailableAux, h, ih]
    · simp [filterToAvailableAux, h, ih]

/-! ## Claims about the availability filter and the tool registry -/

/-- Claim C3: the first component returned by `filter_to_available_tools`
is exactly the subsequence of the proposed calls whose tool name is on the
allow-list, in the original order, each kept call unchanged (same id,
type, function name and arguments string). -/
theorem filter_allowed_exact (tcs : List ToolCall) :
    (filter_to_available_tools tcs).1 =
      tcs.filter (fun tc => decide (tc.name ∈ ALLOWLISTED_TOOLS)) := by
  simpa using filterToAvailableAux_fst tcs [] []

/-- Claim C2: for a tool whose definition requires `user_id`,
`_execute_tool` passes the session user id to the callable, overwriting
any model-supplied value, so the execution is independent of the supplied
`user_id`. -/
theorem execute_tool_identity_override (funcs : String → ArgMap → PyOutcome)
    (uid name : String) (args : ArgMap) (v : String) (req : List String)
    (h1 : findToolDef name = some req) (h2 : "user_id" ∈ req) :
    dictLookup (injectArgs uid name args) "user_id" = some uid ∧
    execute_tool funcs uid name (dictInsert args "user_id" v) =
      execute_tool funcs uid name args := by
  constructor
  · simp [injectArgs, h1, h2, dictLookup_dictInsert]
  · simp [execute_tool, injectArgs, h1, h2, dictInsert_dictInsert]

/-- Witness for C2: session user `alice`, model-supplied `user_id` value
`mallory` on `update_user_preferences`. -/
theorem execute_tool_identity_override_witness :
    dictLookup (injectArgs "alice" "update_user_preferences" [("budget_max", "30")])
        "user_id" = some "alice" ∧
    execute_tool w2funcs "alice" "update_user_preferences"
        (dictInsert [("budget_max", "30")] "user_id" "mallory") =
      execute_tool w2funcs "alice" "update_user_preferences" [("budget_max", "30")] :=
  execute_tool_identity_override w2funcs "alice" "update_user_preferences"
    [("budget_max", "30")] "mallory" ["user_id"] (by rfl) (by decide)

/-- Claim C4: an unknown tool name yields the `Unknown tool:` error result
without invoking any callable (the result does not depend on the bound
callables), and a callable that raises is converted to an error result
instead of propagating. -/
theorem execute_tool_fault_handling (funcs funcs2 : String → ArgMap → PyOutcome)
    (uid name : String) (args : ArgMap) (e : String) :
    (name ∉ TOOL_FUNCTIONS →
      execute_tool funcs uid name args = .error ("Unknown tool: " ++ name) ∧
      execute_tool funcs uid name args = execute_tool funcs2 uid name args) ∧
    (name ∈ TOOL_FUNCTIONS → funcs name (injectArgs uid name args) = .exn e →
      execute_tool funcs uid name args = .error e) := by
  constructor
  · intro h
    constructor <;> simp [execute_tool, h]
  · intro h hr
    simp [execute_tool, h, hr]

/-- Witness for C4: the unregistered name `bogus`, and a weather callable
raising `no api key`. -/
theorem execute_tool_fault_handling_witness :
    execute_tool w4funcs "u" "bogus" [] = .error ("Unknown tool: " ++ "bogus") ∧
    execute_tool w4funcs "u" "get_weather_for_location" [] = .error "no api key" :=
  ⟨((execute_tool_fault_handling w4funcs w4funcs "u" "bogus" [] "x").1 (by decide)).1,
   (execute_tool_fault_handling w4funcs w4funcs "u" "get_weather_for_location" []
      "no api key").2 (by decide) (by rfl)⟩

/-- Claim C9: a tool call whose arguments string fails to decode is
executed with the empty argument dictionary, and execution still produces
one result per call (the turn is not aborted). -/
theorem decode_failure_empty_args (decode : String → Option ArgMap)
    (funcs : String → ArgMap → PyOutcome) (uid : String) (calls : List ToolCall)
    (i : Nat) (h : i < calls.length)
    (hd : decode (calls.get ⟨i, h⟩).arguments = none) :
    (execToolCalls decode funcs uid calls).1.length = calls.length ∧
    (execToolCalls decode funcs uid calls).1.get? i =
      some { tool := (calls.get ⟨i, h⟩).name,
             result := execute_tool funcs uid (calls.get ⟨i, h⟩).name [] } := by
  constructor
  · clear hd h i
    induction calls with
    | nil => rfl
    | cons tc rest ih => simp [execToolCalls, ih]
  · induction calls generalizing i with
    | nil => exact absurd h (by simp)
    | cons tc rest ih =>
      cases i with
      | zero =>
        have hd0 : decode tc.arguments = none := by simpa using hd
        simp [execToolCalls, hd0]
      | succ j =>
        have hj : j < rest.length := by simpa using h
        simpa [execToolCalls] using ih j hj (by simpa using hd)

/-- Witness for C9: a single `get_user_preferences` call with an
undecodable arguments string. -/
theorem decode_failure_empty_args_witness :
    (execToolCalls (fun _ => none) w2funcs "alice" w9calls).1.length = w9calls.length ∧
    (execToolCalls (fun _ => none) w2funcs "alice" w9calls).1.get? 0 =
      some { tool := (w9calls.get ⟨0, by decide⟩).name,
             result := execute_tool w2funcs "alice" (w9calls.get ⟨0, by decide⟩).name [] } :=
  decode_failure_empty_args (fun _ => none) w2funcs "alice" w9calls 0 (by decide) rfl

/-! ## Claims about the completion retry logic -/

theorem modelAt_succ (m0 : String) (i : Nat) :
    modelAt m0 (i + 1) = OPENROUTER_BACKUP_MODEL := rfl

theorem getCompletionAux_429_skip (t : Nat → String → TOutcome) (m0 : String) :
    ∀ n i fuel, (∀ j, i ≤ j → j < i + n → t j (modelAt m0 j) = .err429) →
      getCompletionAux t (n + fuel) i (modelAt m0 i) =
        getCompletionAux t fuel (i + n) (modelAt m0 (i + n)) := by
  intro n
  induction n with
  | zero => intro i fuel _; simp
  | succ n ih =>
    intro i fuel H
    have h429 : t i (modelAt m0 i) = .err429 := H i le_rfl (by omega)
    have hfuel : n + 1 + fuel = (n + fuel) + 1 := by omega
    rw [hfuel]
    have hstep : getCompletionAux t ((n + fuel) + 1) i (modelAt m0 i) =
        getCompletionAux t (n + fuel) (i + 1) OPENROUTER_BACKUP_MODEL := by
      conv_lhs => unfold getCompletionAux
      rw [h429]
    have hb : OPENROUTER_BACKUP_MODEL = modelAt m0 (i + 1) := rfl
    have hih := ih (i + 1) fuel (fun j hj1 hj2 => H j (by omega) (by omega))
    have harith : i + 1 + n = i + (n + 1) := by omega
    rw [hstep, hb, hih, harith]

theorem getCompletionAux_all429 (t : Nat → String → TOutcome) (m0 : String)
    (H : ∀ i, t i (modelAt m0 i) = .err429) :
    ∀ fuel i, getCompletionAux t fuel i (modelAt m0 i) = none := by
  intro fuel
  induction fuel with
  | zero => intro i; rfl
  | succ fuel ih =>
    intro i
    unfold getCompletionAux
    rw [H i]
    have hb : OPENROUTER_BACKUP_MODEL = modelAt m0 (i + 1) := rfl
    rw [hb]
    exact ih (i + 1)

/-- Counterexample to C8 as stated: against a transport that signals a
rate limit on the first two attempts and then succeeds, `_get_completion`
returns the third attempt's completion, so three attempts are made — the
claimed bound of at most two attempts per requested turn is false. -/
theorem retry_attempts_exceed_two :
    get_completion w8twice 10 OPENROUTER_DEFAULT_MODEL =
      some (.ok (mockTurn, 3)) ∧ ¬ (3 ≤ 2) :=
  ⟨rfl, by decide⟩

/-- Claim C8 (amended): on a 429 the code retries against the backup
model, and this retry itself retries on any further 429; if the first `n`
attempts all signal 429 then the outcome of attempt `n` (one more than
`n`, under the backup model once `n > 0`) is returned — a success is
returned and a non-429 error surfaces after exactly `n + 1` attempts —
and a transport that always signals 429 never yields a result. -/
theorem retry_until_non429 (t : Nat → String → TOutcome) (m0 : String) (n : Nat)
    (H : ∀ i, i < n → t i (modelAt m0 i) = .err429) :
    (∀ c, t n (modelAt m0 n) = .ok c →
      ∀ k, get_completion t (n + 1 + k) m0 = some (.ok (c, n + 1))) ∧
    (∀ e, t n (modelAt m0 n) = .errOther e →
      ∀ k, get_completion t (n + 1 + k) m0 = some (.error e)) ∧
    ((∀ i, t i (modelAt m0 i) = .err429) →
      ∀ fuel, get_completion t fuel m0 = none) := by
  have hskip : ∀ k, get_completion t (n + 1 + k) m0 =
      getCompletionAux t (1 + k) n (modelAt m0 n) := by
    intro k
    have harith : n + 1 + k = n + (1 + k) := by omega
    have h := getCompletionAux_429_skip t m0 n 0 (1 + k)
      (fun j hj1 hj2 => H j (by omega))
    rw [get_completion, harith]
    simpa [modelAt] using h
  refine ⟨?_, ?_, ?_⟩
  · intro c hc k
    rw [hskip k]
    have h1 : 1 + k = k + 1 := by omega
    rw [h1]
    unfold getCompletionAux
    rw [hc]
  · intro e he k
    rw [hskip k]
    have h1 : 1 + k = k + 1 := by omega
    rw [h1]
    unfold getCompletionAux
    rw [he]
  · intro Hall fuel
    have h0 : m0 = modelAt m0 0 := rfl
    rw [get_completion, h0]
    exact getCompletionAux_all429 t m0 Hall fuel 0

/-- Witness for the amended C8: one 429 followed by a success on the
backup model gives a result after two attempts. -/
theorem retry_until_non429_witness :
    get_completion w8once 5 OPENROUTER_DEFAULT_MODEL = some (.ok (mockTurn, 2)) :=
  (retry_until_non429 w8once OPENROUTER_DEFAULT_MODEL 1
    (by
      intro i hi
      have h0 : i = 0 := by omega
      rw [h0]
      rfl)).1 mockTurn rfl 3

/-! ## Helper lemmas for the orchestration loop -/

theorem pyStrOr_ne (s d : String) (hd : d ≠ "") : pyStrOr s d ≠ "" := by
  unfold pyStrOr
  split
  · exact hd
  · assumption

theorem ite_filter_eq (l : List ToolCall) :
    (if l ≠ [] then filter_to_available_tools l else ([], [])) =
      filter_to_available_tools l := by
  split
  · rfl
  · rename_i h
    have hl : l = [] := by simpa using h
    rw [hl]
    rfl

theorem mergeSkipped_nodup : ∀ (ns all : List String), all.Nodup →
    (mergeSkipped all ns).Nodup := by
  intro ns
  induction ns with
  | nil => intro all h; exact h
  | cons n rest ih =>
    intro all h
    unfold mergeSkipped
    split
    · exact ih all h
    · rename_i hn
      exact ih _ (List.nodup_append.mpr
        ⟨h, List.nodup_singleton n, by simpa using hn⟩)

theorem loop_zero_ok (comps : Nat → Option TurnMsg) (decode : String → Option ArgMap)
    (funcs : String → ArgMap → PyOutcome) (uid : String) (st : LoopState) :
    (process_message_loop comps decode funcs uid 0 st).calls = st.callIdx + 1 ∧
    ∃ r, (process_message_loop comps decode funcs uid 0 st).result = Except.ok r := by
  unfold process_message_loop
  split <;> exact ⟨rfl, _, rfl⟩

theorem loop_step_exec (comps : Nat → Option TurnMsg) (decode : String → Option ArgMap)
    (funcs : String → ArgMap → PyOutcome) (uid : String) (fuel : Nat) (st : LoopState)
    (m : TurnMsg) (hm : comps st.callIdx = some m)
    (hf : (filter_to_available_tools m.tool_calls).1 ≠ []) :
    process_message_loop comps decode funcs uid (fuel + 1) st =
      process_message_loop comps decode funcs uid fuel
        { callIdx := st.callIdx + 1,
          history := st.history ++
            [Msg.assistant (m.content.getD "")
              (filter_to_available_tools m.tool_calls).1] ++
            (execToolCalls decode funcs uid (filter_to_available_tools m.tool_calls).1).2,
          toolResults := st.toolResults ++
            (execToolCalls decode funcs uid (filter_to_available_tools m.tool_calls).1).1,
          allSkipped := mergeSkipped st.allSkipped
            (filter_to_available_tools m.tool_calls).2 } := by
  conv_lhs => unfold process_message_loop
  rw [hm]
  dsimp only
  rw [ite_filter_eq]
  rw [if_pos hf]

theorem loop_result_ok_response_ne (comps : Nat → Option TurnMsg)
    (decode : String → Option ArgMap) (funcs : String → ArgMap → PyOutcome)
    (uid : String) : ∀ fuel st r,
    (process_message_loop comps decode funcs uid fuel st).result = Except.ok r →
    r.response ≠ "" := by
  intro fuel
  induction fuel with
  | zero =>
    intro st r h
    unfold process_message_loop at h
    split at h <;>
      (dsimp only at h; simp only [Except.ok.injEq] at h; subst h)
    · exact pyStrOr_ne _ _ (by decide)
    · exact (by decide :
        ("I encountered an issue processing your request." : String) ≠ "")
  | succ fuel ih =>
    intro st r h
    unfold process_message_loop at h
    split at h
    · dsimp only at h
      simp only [Except.ok.injEq] at h
      subst h
      exact (by decide :
        ("I encountered an issue processing your request. Please try again." : String) ≠ "")
    · dsimp only at h
      rw [ite_filter_eq] at h
      split at h
      · exact ih _ r h
      · split at h
        · dsimp only at h
          simp only [Except.ok.injEq] at h
          subst h
          exact pyStrOr_ne _ _ (by decide)
        · dsimp only at h
          exact absurd h (by simp)

/-! ## Claims about `process_message` -/

/-- Claim C10: whenever `process_message` returns without raising, the
returned `response` field is a non-empty string. -/
theorem response_nonempty_of_ok (comps : Nat → Option TurnMsg)
    (decode : String → Option ArgMap) (funcs : String → ArgMap → PyOutcome)
    (uid message : String) (history0 : List Msg) (r : PMOut)
    (h : process_message comps decode funcs uid message history0 = Except.ok r) :
    r.response ≠ "" :=
  loop_result_ok_response_ne comps decode funcs uid max_iterations _ r h

/-- Witness for C10: a provider returning empty `choices` makes
`process_message` return the generic non-empty apology. -/
theorem response_nonempty_of_ok_witness :
    ({ response := "I encountered an issue processing your request. Please try again.",
       tool_results := [], skipped_tools_message := none } : PMOut).response ≠ "" :=
  response_nonempty_of_ok w10comps (fun _ => none) w2funcs "u" "hi" [] _ rfl

/-- Claim C7: the `all_skipped_tools` list accumulated across the whole
`process_message` call — the list the advisory is built from — contains
each denied display name at most once, whichever turns denied it. -/
theorem skipped_names_nodup (comps : Nat → Option TurnMsg)
    (decode : String → Option ArgMap) (funcs : String → ArgMap → PyOutcome)
    (uid message : String) (history0 : List Msg) :
    (process_message_trace comps decode funcs uid message history0).allSkipped.Nodup := by
  have hloop : ∀ fuel st, st.allSkipped.Nodup →
      (process_message_loop comps decode funcs uid fuel st).allSkipped.Nodup := by
    intro fuel
    induction fuel with
    | zero =>
      intro st h
      unfold process_message_loop
      split <;> simpa
    | succ fuel ih =>
      intro st h
      unfold process_message_loop
      split
      · simpa
      · dsimp only
        rw [ite_filter_eq]
        split
        · refine ih _ ?_
          exact mergeSkipped_nodup _ _ h
        · split
          · exact mergeSkipped_nodup _ _ h
          · exact mergeSkipped_nodup _ _ h
  exact hloop max_iterations _ (by simp)

/-- Claim C5: when every turn proposes at least one executable tool
request, the loop runs its 3 iterations, issues exactly one extra summary
completion call (4 completion calls in total) and returns normally. -/
theorem bounded_iterations (comps : Nat → Option TurnMsg)
    (decode : String → Option ArgMap) (funcs : String → ArgMap → PyOutcome)
    (uid message : String) (history0 : List Msg)
    (H : ∀ k, k < 3 → ∃ t, comps k = some t ∧
      (filter_to_available_tools t.tool_calls).1 ≠ []) :
    (process_message_trace comps decode funcs uid message history0).calls = 4 ∧
    ∃ r, (process_message_trace comps decode funcs uid message history0).result =
      Except.ok r := by
  obtain ⟨t0, h0, hf0⟩ := H 0 (by omega)
  obtain ⟨t1, h1, hf1⟩ := H 1 (by omega)
  obtain ⟨t2, h2, hf2⟩ := H 2 (by omega)
  have e1 : process_message_trace comps decode funcs uid message history0 =
      process_message_loop comps decode funcs uid (2 + 1)
        { callIdx := 0, history := history0 ++ [Msg.user message],
          toolResults := [], allSkipped := [] } := rfl
  rw [e1, loop_step_exec comps decode funcs uid 2 _ t0 h0 hf0]
  rw [show process_message_loop comps decode funcs uid 2 =
    process_message_loop comps decode funcs uid (1 + 1) from rfl]
  rw [loop_step_exec comps decode funcs uid 1 _ t1 h1 hf1]
  rw [show process_message_loop comps decode funcs uid 1 =
    process_message_loop comps decode funcs uid (0 + 1) from rfl]
  rw [loop_step_exec comps decode funcs uid 0 _ t2 h2 hf2]
  exact ⟨(loop_zero_ok comps decode funcs uid _).1,
    (loop_zero_ok comps decode funcs uid _).2⟩

/-- Witness for C5: a provider that proposes an executable
`save_to_sheets` call on every turn. -/
theorem bounded_iterations_witness :
    (process_message_trace w5comps (fun _ => none) w2funcs "u" "hi" []).calls = 4 ∧
    ∃ r, (process_message_trace w5comps (fun _ => none) w2funcs "u" "hi" []).result =
      Except.ok r :=
  bounded_iterations w5comps (fun _ => none) w2funcs "u" "hi" []
    (fun _ _ => ⟨w5turn, rfl, by decide⟩)

/-- Claim C6: in any iteration in which filtering leaves zero executable
requests, the turn carried no text and at least one request was denied,
the loop appends the corrective system note naming the denied tools,
issues exactly one more completion call, and returns a non-empty response. -/
theorem dead_end_recovery (comps : Nat → Option TurnMsg)
    (decode : String → Option ArgMap) (funcs : String → ArgMap → PyOutcome)
    (uid : String) (fuel : Nat) (st : LoopState) (m : TurnMsg)
    (hm : comps st.callIdx = some m)
    (hc : m.content.getD "" = "")
    (hf : (filter_to_available_tools m.tool_calls).1 = [])
    (hs : (filter_to_available_tools m.tool_calls).2 ≠ []) :
    (process_message_loop comps decode funcs uid (fuel + 1) st).calls = st.callIdx + 2 ∧
    Msg.system ("The tools you requested (" ++
        String.intercalate ", " (filter_to_available_tools m.tool_calls).2 ++
        ") are currently unavailable. Please provide a helpful response without using those tools, based on your general knowledge.") ∈
      (process_message_loop comps decode funcs uid (fuel + 1) st).history ∧
    ∃ r, (process_message_loop comps decode funcs uid (fuel + 1) st).result =
      Except.ok r ∧ r.response ≠ "" := by
  unfold process_message_loop
  rw [hm]
  dsimp only
  rw [ite_filter_eq, hf, hc]
  rw [if_neg (by simp)]
  rw [if_pos ⟨hs, rfl⟩]
  refine ⟨rfl, by simp, ?_⟩
  exact ⟨_, rfl, pyStrOr_ne _ _ (by decide)⟩

/-- Witness for C6: a first turn proposing only the denied
`scrape_activities` with no text. -/
theorem dead_end_recovery_witness :
    (process_message_loop w6comps (fun _ => none) w2funcs "u" 3 w6st).calls = 2 ∧
    Msg.system ("The tools you requested (" ++
        String.intercalate ", " (filter_to_available_tools w6turn.tool_calls).2 ++
        ") are currently unavailable. Please provide a helpful response without using those tools, based on your general knowledge.") ∈
      (process_message_loop w6comps (fun _ => none) w2funcs "u" 3 w6st).history ∧
    ∃ r, (process_message_loop w6comps (fun _ => none) w2funcs "u" 3 w6st).result =
      Except.ok r ∧ r.response ≠ "" :=
  dead_end_recovery w6comps (fun _ => none) w2funcs "u" 2 w6st w6turn rfl rfl rfl
    (by decide)

/-- Claim C1 (code bug): on the terminal success path — a completion turn
carrying text and no executable tool requests — `process_message` does
not return the text; it raises `UnboundLocalError`, because
`skipped_tools_msg` is read on the final-response path
(`orchestrator.py` lines 292-293) but is only ever assigned inside the
dead-end branch, which returns before reaching that path. -/
theorem terminal_text_path_unbound_local :
    process_message w1comps (fun _ => none) w2funcs "alice" "hi" [] =
      Except.error (RunErr.unboundLocal "skipped_tools_msg") := rfl

end ActivitiesAgent
